import Mathlib

/-!
Verification of the formamail Python SDK (formamail/sdk-python) against its
specification. The development shallow-embeds the request-building core of
`src/formamail/resources/emails.py` and the response unwrapping of
`src/formamail/client.py`: Python JSON-like values become the inductive type
`PyVal`, Python dicts become ordered association lists (insertion order, as in
CPython), fallible code returns `Except`, and each resource method becomes a
pure Lean function from an options record to the HTTP request it would issue
(path plus JSON body). Definitions are transcribed from the source; theorems
settle the claims of the specification.
-/

/-- A Python value as it appears in the JSON-like data handled by the SDK:
None, bool, int, str, list, and dict (modelled as an ordered association
list, matching CPython dict insertion order; keys are unique in every dict
the SDK builds). Floats do not occur in the embedded code paths. -/
inductive PyVal where
  | null : PyVal
  | bool : Bool → PyVal
  | int : Int → PyVal
  | str : String → PyVal
  | list : List PyVal → PyVal
  | dict : List (String × PyVal) → PyVal

/-- The runtime error raised by the embedded code paths. The only raise
statement in `emails.py` is `ValueError(f"Invalid recipient type: {type(recipients)}")`
in `_normalize_recipients`; we carry the message string (with the received
type rendered by its bare class name). -/
inductive PyError where
  | valueError : String → PyError

/-- The Python class name of a value, as used in the `ValueError` message of
`_normalize_recipients`. -/
def pyTypeName : PyVal → String
  | PyVal.null => "NoneType"
  | PyVal.bool _ => "bool"
  | PyVal.int _ => "int"
  | PyVal.str _ => "str"
  | PyVal.list _ => "list"
  | PyVal.dict _ => "dict"

/-- Body of the per-element loop in `_normalize_recipients` (emails.py lines
31-35): a string element becomes `{"email": r}`, any other element is
appended unchanged. -/
def normalize_elem (r : PyVal) : PyVal :=
  match r with
  | PyVal.str s => PyVal.dict [("email", PyVal.str s)]
  | other => other

/-- Embedding of `_normalize_recipients` (emails.py lines 14-38): a string
becomes a one-element list `[{"email": s}]`, a dict is wrapped as a
one-element list unchanged, a list is mapped through the element rule, and
any other value raises `ValueError` naming the received type. -/
def normalize_recipients (recipients : PyVal) : Except PyError (List PyVal) :=
  match recipients with
  | PyVal.str s => Except.ok [PyVal.dict [("email", PyVal.str s)]]
  | PyVal.dict d => Except.ok [PyVal.dict d]
  | PyVal.list rs => Except.ok (rs.map normalize_elem)
  | other => Except.error (PyError.valueError ("Invalid recipient type: " ++ pyTypeName other))

/-- Entry contributed to a request body by `if opt: body[k] = opt` for an
`Optional[str]` parameter: Python truthiness omits both `None` and the empty
string. -/
def strEntry (k : String) (o : Option String) : List (String × PyVal) :=
  match o with
  | some s => if s.isEmpty then [] else [(k, PyVal.str s)]
  | none => []

/-- Entry contributed by `if opt: body[k] = opt` for an `Optional[Dict[str, Any]]`
parameter: omitted when `None` or empty. -/
def dictEntry (k : String) (o : Option (List (String × PyVal))) : List (String × PyVal) :=
  match o with
  | some d => if d.isEmpty then [] else [(k, PyVal.dict d)]
  | none => []

/-- Entry contributed by `if opt: body[k] = opt` for an `Optional[Dict[str, str]]`
parameter (the `headers` option): omitted when `None` or empty. -/
def strMapEntry (k : String) (o : Option (List (String × String))) : List (String × PyVal) :=
  match o with
  | some d => if d.isEmpty then [] else [(k, PyVal.dict (d.map (fun kv => (kv.1, PyVal.str kv.2))))]
  | none => []

/-- Entry contributed by `if opt: body[k] = opt` for an `Optional[List[str]]`
parameter (the `tags` option): omitted when `None` or empty. -/
def strListEntry (k : String) (o : Option (List String)) : List (String × PyVal) :=
  match o with
  | some l => if l.isEmpty then [] else [(k, PyVal.list (l.map PyVal.str))]
  | none => []

/-- Entry contributed by `if opt: body[k] = opt` for an `Optional[List[...]]`
parameter holding arbitrary values (the `attachments` options): omitted when
`None` or empty. -/
def pyListEntry (k : String) (o : Option (List PyVal)) : List (String × PyVal) :=
  match o with
  | some l => if l.isEmpty then [] else [(k, PyVal.list l)]
  | none => []

/-- Entry contributed by `if opt is not None: body[k] = opt` for an
`Optional[bool]` parameter (the `dry_run` option): included whenever
supplied, also when it is `False`. -/
def boolEntry (k : String) (o : Option Bool) : List (String × PyVal) :=
  match o with
  | some b => [(k, PyVal.bool b)]
  | none => []

/-- Entry contributed by `if cc is not None: body[key] = _normalize_recipients(cc)`
(emails.py lines 116-119): included whenever supplied, also when the
normalized list is empty; normalization may raise. -/
def ccEntryE (key : String) (c : Option PyVal) : Except PyError (List (String × PyVal)) :=
  match c with
  | none => Except.ok []
  | some cc => (normalize_recipients cc).map (fun l => [(key, PyVal.list l)])

/-- Expected lookup result for a field written by `if opt: body[k] = opt`
with an `Optional[str]` option: absent unless a non-empty string was
supplied. -/
def strVal (o : Option String) : Option PyVal :=
  match o with
  | some s => if s.isEmpty then none else some (PyVal.str s)
  | none => none

/-- Expected lookup result for an `Optional[Dict[str, Any]]` option: absent
unless a non-empty mapping was supplied. -/
def dictVal (o : Option (List (String × PyVal))) : Option PyVal :=
  match o with
  | some d => if d.isEmpty then none else some (PyVal.dict d)
  | none => none

/-- Expected lookup result for the `headers` option. -/
def strMapVal (o : Option (List (String × String))) : Option PyVal :=
  match o with
  | some d => if d.isEmpty then none else some (PyVal.dict (d.map (fun kv => (kv.1, PyVal.str kv.2))))
  | none => none

/-- Expected lookup result for the `tags` option. -/
def strListVal (o : Option (List String)) : Option PyVal :=
  match o with
  | some l => if l.isEmpty then none else some (PyVal.list (l.map PyVal.str))
  | none => none

/-- Expected lookup result for a list-of-values option such as `attachments`. -/
def pyListVal (o : Option (List PyVal)) : Option PyVal :=
  match o with
  | some l => if l.isEmpty then none else some (PyVal.list l)
  | none => none

/-- Expected lookup result for the `dry_run` option: present whenever
supplied, also when `False`. -/
def boolVal (o : Option Bool) : Option PyVal :=
  match o with
  | some b => some (PyVal.bool b)
  | none => none

/-- An HTTP request as handed to the HTTP collaborator: a fixed path and a
JSON body (ordered association list, CPython dict insertion order). -/
structure Request where
  path : String
  body : List (String × PyVal)

/-- Arguments of `EmailsResource.send` / `AsyncEmailsResource.send`
(emails.py lines 47-66 and 385-404), with the same defaults. The fields
`to_` and `variables_` carry a trailing underscore because the bare source
names are reserved words in Lean. -/
structure SendOptions where
  template_id : String
  to_ : PyVal
  cc : Option PyVal := none
  bcc : Option PyVal := none
  version : Option String := none
  sender_email : Option String := none
  sender_id : Option String := none
  from_name : Option String := none
  reply_to : Option String := none
  variables_ : Option (List (String × PyVal)) := none
  priority : Option String := none
  scheduled_at : Option String := none
  headers : Option (List (String × String)) := none
  tags : Option (List String) := none
  metadata : Option (List (String × PyVal)) := none
  attachments : Option (List PyVal) := none

/-- Arguments of `EmailsResource.send_bulk` / `AsyncEmailsResource.send_bulk`
(emails.py lines 208-227 and 479-498), with the same defaults. The
`recipients` parameter is a list of dicts, matching its declared type
`List[Dict[str, Any]]`. -/
structure BulkOptions where
  template_id : String
  recipients : List (List (String × PyVal))
  version : Option String := none
  base_variables : Option (List (String × PyVal)) := none
  attachments : Option (List PyVal) := none
  sender_email : Option String := none
  sender_id : Option String := none
  from_name : Option String := none
  reply_to : Option String := none
  priority : Option String := none
  headers : Option (List (String × String)) := none
  tags : Option (List String) := none
  metadata : Option (List (String × PyVal)) := none
  batch_name : Option String := none
  dry_run : Option Bool := none
  scheduled_at : Option String := none

namespace EmailsResource

/-- Embedding of the request-building part of `EmailsResource.send`
(emails.py lines 111-145): normalizes `to` (then `cc`, then `bcc`, each of
which may raise), assembles the body in source order, and posts to
`/api/v1/emails/send`. -/
def send (o : SendOptions) : Except PyError Request := do
  let toNorm ← normalize_recipients o.to_
  let ccPart ← ccEntryE "cc" o.cc
  let bccPart ← ccEntryE "bcc" o.bcc
  pure { path := "/api/v1/emails/send",
         body := [("templateId", PyVal.str o.template_id), ("to", PyVal.list toNorm)]
           ++ ccPart ++ bccPart
           ++ strEntry "version" o.version
           ++ strEntry "senderEmail" o.sender_email
           ++ strEntry "senderId" o.sender_id
           ++ strEntry "fromName" o.from_name
           ++ strEntry "replyTo" o.reply_to
           ++ dictEntry "variables" o.variables_
           ++ strEntry "priority" o.priority
           ++ strEntry "scheduledAt" o.scheduled_at
           ++ strMapEntry "headers" o.headers
           ++ strListEntry "tags" o.tags
           ++ dictEntry "metadata" o.metadata
           ++ pyListEntry "attachments" o.attachments }

/-- Embedding of `EmailsResource.send_with_attachment` (emails.py lines
148-206): builds the attachment dict with `type` and `templateId` always
present, `fileName` and `variables` under truthiness, and delegates to
`send` with `attachments=[attachment]`, forwarding the remaining options. -/
def send_with_attachment (o : SendOptions) (attachment_template_id : String)
    (attachment_type : String) (file_name : Option String)
    (attachment_variables : Option (List (String × PyVal))) : Except PyError Request :=
  send { o with attachments := some [PyVal.dict
    ([("type", PyVal.str attachment_type), ("templateId", PyVal.str attachment_template_id)]
      ++ strEntry "fileName" file_name
      ++ dictEntry "variables" attachment_variables)] }

/-- Embedding of the request-building part of `EmailsResource.send_bulk`
(emails.py lines 309-343): the body starts with `templateId` and the
`recipients` list passed through verbatim, followed by the optional fields
in source order; the request is posted to `/api/v1/emails/send/bulk`. The
source contains no validation and no raise statement on this path. -/
def send_bulk (o : BulkOptions) : Request :=
  { path := "/api/v1/emails/send/bulk",
    body := [("templateId", PyVal.str o.template_id),
             ("recipients", PyVal.list (o.recipients.map PyVal.dict))]
      ++ strEntry "version" o.version
      ++ dictEntry "baseVariables" o.base_variables
      ++ pyListEntry "attachments" o.attachments
      ++ strEntry "senderEmail" o.sender_email
      ++ strEntry "senderId" o.sender_id
      ++ strEntry "fromName" o.from_name
      ++ strEntry "replyTo" o.reply_to
      ++ strEntry "priority" o.priority
      ++ strMapEntry "headers" o.headers
      ++ strListEntry "tags" o.tags
      ++ dictEntry "metadata" o.metadata
      ++ strEntry "batchName" o.batch_name
      ++ boolEntry "dryRun" o.dry_run
      ++ strEntry "scheduledAt" o.scheduled_at }

end EmailsResource

namespace AsyncEmailsResource

/-- Embedding of the request-building part of `AsyncEmailsResource.send`
(emails.py lines 410-444), transcribed from the async source lines; awaiting
happens only inside the HTTP collaborator, outside the embedded logic. -/
def send (o : SendOptions) : Except PyError Request := do
  let toNorm ← normalize_recipients o.to_
  let ccPart ← ccEntryE "cc" o.cc
  let bccPart ← ccEntryE "bcc" o.bcc
  pure { path := "/api/v1/emails/send",
         body := [("templateId", PyVal.str o.template_id), ("to", PyVal.list toNorm)]
           ++ ccPart ++ bccPart
           ++ strEntry "version" o.version
           ++ strEntry "senderEmail" o.sender_email
           ++ strEntry "senderId" o.sender_id
           ++ strEntry "fromName" o.from_name
           ++ strEntry "replyTo" o.reply_to
           ++ dictEntry "variables" o.variables_
           ++ strEntry "priority" o.priority
           ++ strEntry "scheduledAt" o.scheduled_at
           ++ strMapEntry "headers" o.headers
           ++ strListEntry "tags" o.tags
           ++ dictEntry "metadata" o.metadata
           ++ pyListEntry "attachments" o.attachments }

/-- Embedding of the request-building part of `AsyncEmailsResource.send_bulk`
(emails.py lines 504-538), transcribed from the async source lines. -/
def send_bulk (o : BulkOptions) : Request :=
  { path := "/api/v1/emails/send/bulk",
    body := [("templateId", PyVal.str o.template_id),
             ("recipients", PyVal.list (o.recipients.map PyVal.dict))]
      ++ strEntry "version" o.version
      ++ dictEntry "baseVariables" o.base_variables
      ++ pyListEntry "attachments" o.attachments
      ++ strEntry "senderEmail" o.sender_email
      ++ strEntry "senderId" o.sender_id
      ++ strEntry "fromName" o.from_name
      ++ strEntry "replyTo" o.reply_to
      ++ strEntry "priority" o.priority
      ++ strMapEntry "headers" o.headers
      ++ strListEntry "tags" o.tags
      ++ dictEntry "metadata" o.metadata
      ++ strEntry "batchName" o.batch_name
      ++ boolEntry "dryRun" o.dry_run
      ++ strEntry "scheduledAt" o.scheduled_at }

end AsyncEmailsResource

/-- Embedding of the response unwrapping `response.get("data", response)`
(emails.py line 146, client.py line 69 and elsewhere): the responses reaching
it are JSON objects (Python dicts); `dict.get` with a default never raises,
returning the value bound to `"data"` when the key is present and the whole
response otherwise. -/
def unwrapResponse (response : List (String × PyVal)) : PyVal :=
  match response.lookup "data" with
  | some v => v
  | none => PyVal.dict response

/-- Modelled from the spec: the Variable Merge Policy of spec section 4.3.
The SDK source under src/ forwards `baseVariables` and the per-recipient
`variables` verbatim in the bulk body and contains no merge implementation;
the send_bulk docstring (emails.py line 233) declares that per-recipient
variables are "merged with base_variables", with the merge itself performed
outside src/. Following the spec: a shallow merge in which override keys
shadow base keys, keys present in only one input pass through, and a `None`
or absent input is treated as an empty mapping (Python
`{**(base or {}), **(override or {})}` semantics on ordered dicts). -/
def mergeVariables (base override : Option (List (String × PyVal))) : List (String × PyVal) :=
  let b := base.getD []
  let o := override.getD []
  b.map (fun kv => (kv.1, (o.lookup kv.1).getD kv.2))
    ++ o.filter (fun kv => (b.lookup kv.1).isNone)

/-- The per-recipient attachment data present in a built bulk request body:
the `attachmentOverrides` entry of the i-th recipient record under the
`recipients` key of the body. A projection of the built body; the top-level
default `attachments` live under a separate key and are never copied into
recipient records by the builder. -/
def recipientViewInBody (body : List (String × PyVal)) (i : Nat) : Option PyVal :=
  match body.lookup "recipients" with
  | some (PyVal.list rs) =>
    match rs[i]? with
    | some (PyVal.dict r) => r.lookup "attachmentOverrides"
    | _ => none
  | _ => none

/-- Boolean test from `_normalize_recipients`: is a value a string or a dict,
the two element shapes the per-element rule recognizes. -/
def isRecipElem : PyVal → Bool
  | PyVal.str _ => true
  | PyVal.dict _ => true
  | _ => false

/-- A valid `RecipientInput` in the sense of the spec data model: a string,
a record, or a sequence of strings and records. -/
def isValidRecipientInput : PyVal → Bool
  | PyVal.str _ => true
  | PyVal.dict _ => true
  | PyVal.list rs => rs.all isRecipElem
  | _ => false

/-- Input count of a `RecipientInput`: 1 for a scalar, N for a sequence of
N elements. -/
def inputCount : PyVal → Nat
  | PyVal.list rs => rs.length
  | _ => 1

theorem lookup_append_or (l1 l2 : List (String × PyVal)) (k : String) :
    ((l1 ++ l2).lookup k) = ((l1.lookup k).or (l2.lookup k)) := by
  induction l1 with
  | nil => simp [List.lookup]
  | cons a t ih =>
    simp only [List.cons_append, List.lookup]
    cases h : (k == a.1) <;> simp [h, ih]

theorem strEntry_lookup (k q : String) (o : Option String) :
    (strEntry k o).lookup q = if q == k then strVal o else none := by
  match o with
  | none => cases h : (q == k) <;> simp [strEntry, strVal, List.lookup, h]
  | some s =>
    by_cases hs : s.isEmpty <;> cases h : (q == k) <;>
      simp [strEntry, strVal, List.lookup, hs, h]

theorem dictEntry_lookup (k q : String) (o : Option (List (String × PyVal))) :
    (dictEntry k o).lookup q = if q == k then dictVal o else none := by
  match o with
  | none => cases h : (q == k) <;> simp [dictEntry, dictVal, List.lookup, h]
  | some d =>
    by_cases hd : d.isEmpty <;> cases h : (q == k) <;>
      simp [dictEntry, dictVal, List.lookup, hd, h]

theorem strMapEntry_lookup (k q : String) (o : Option (List (String × String))) :
    (strMapEntry k o).lookup q = if q == k then strMapVal o else none := by
  match o with
  | none => cases h : (q == k) <;> simp [strMapEntry, strMapVal, List.lookup, h]
  | some d =>
    by_cases hd : d.isEmpty <;> cases h : (q == k) <;>
      simp [strMapEntry, strMapVal, List.lookup, hd, h]

theorem strListEntry_lookup (k q : String) (o : Option (List String)) :
    (strListEntry k o).lookup q = if q == k then strListVal o else none := by
  match o with
  | none => cases h : (q == k) <;> simp [strListEntry, strListVal, List.lookup, h]
  | some l =>
    by_cases hl : l.isEmpty <;> cases h : (q == k) <;>
      simp [strListEntry, strListVal, List.lookup, hl, h]

theorem pyListEntry_lookup (k q : String) (o : Option (List PyVal)) :
    (pyListEntry k o).lookup q = if q == k then pyListVal o else none := by
  match o with
  | none => cases h : (q == k) <;> simp [pyListEntry, pyListVal, List.lookup, h]
  | some l =>
    by_cases hl : l.isEmpty <;> cases h : (q == k) <;>
      simp [pyListEntry, pyListVal, List.lookup, hl, h]

theorem boolEntry_lookup (k q : String) (o : Option Bool) :
    (boolEntry k o).lookup q = if q == k then boolVal o else none := by
  match o with
  | none => cases h : (q == k) <;> simp [boolEntry, boolVal, List.lookup, h]
  | some b => cases h : (q == k) <;> simp [boolEntry, boolVal, List.lookup, h]

theorem send_ok_elim {o : SendOptions} {r : Request} (h : EmailsResource.send o = Except.ok r) :
    ∃ toN ccPart bccPart,
      normalize_recipients o.to_ = Except.ok toN ∧
      ccEntryE "cc" o.cc = Except.ok ccPart ∧
      ccEntryE "bcc" o.bcc = Except.ok bccPart ∧
      r.path = "/api/v1/emails/send" ∧
      r.body = [("templateId", PyVal.str o.template_id), ("to", PyVal.list toN)]
        ++ ccPart ++ bccPart
        ++ strEntry "version" o.version
        ++ strEntry "senderEmail" o.sender_email
        ++ strEntry "senderId" o.sender_id
        ++ strEntry "fromName" o.from_name
        ++ strEntry "replyTo" o.reply_to
        ++ dictEntry "variables" o.variables_
        ++ strEntry "priority" o.priority
        ++ strEntry "scheduledAt" o.scheduled_at
        ++ strMapEntry "headers" o.headers
        ++ strListEntry "tags" o.tags
        ++ dictEntry "metadata" o.metadata
        ++ pyListEntry "attachments" o.attachments := by
  cases h1 : normalize_recipients o.to_ with
  | error e => simp [EmailsResource.send, h1, Except.bind, Bind.bind] at h
  | ok toN =>
    cases h2 : ccEntryE "cc" o.cc with
    | error e => simp [EmailsResource.send, h1, h2, Except.bind, Bind.bind] at h
    | ok ccPart =>
      cases h3 : ccEntryE "bcc" o.bcc with
      | error e => simp [EmailsResource.send, h1, h2, h3, Except.bind, Bind.bind] at h
      | ok bccPart =>
        simp only [EmailsResource.send, h1, h2, h3, Except.bind, Bind.bind,
          Pure.pure, Except.pure, Except.ok.injEq] at h
        exact ⟨toN, ccPart, bccPart, rfl, rfl, rfl, by rw [← h], by rw [← h]⟩

theorem ccEntryE_lookup_ne {key : String} {c : Option PyVal} {part : List (String × PyVal)}
    (h : ccEntryE key c = Except.ok part) (q : String) (hq : (q == key) = false) :
    part.lookup q = none := by
  match c with
  | none =>
    simp only [ccEntryE, Except.ok.injEq] at h
    simp [← h]
  | some cc =>
    cases hn : normalize_recipients cc with
    | error e => simp [ccEntryE, hn, Except.map] at h
    | ok l =>
      simp only [ccEntryE, hn, Except.map, Except.ok.injEq] at h
      simp [← h, List.lookup, hq]

theorem ccEntryE_lookup_self {key : String} {cc : PyVal} {part : List (String × PyVal)}
    {l : List PyVal} (h : ccEntryE key (some cc) = Except.ok part)
    (hn : normalize_recipients cc = Except.ok l) :
    part.lookup key = some (PyVal.list l) := by
  simp only [ccEntryE, hn, Except.map, Except.ok.injEq] at h
  simp [← h, List.lookup]

set_option maxHeartbeats 1600000 in
theorem send_lookup_master {o : SendOptions} {r : Request}
    (h : EmailsResource.send o = Except.ok r) :
    r.body.lookup "version" = strVal o.version
    ∧ r.body.lookup "senderEmail" = strVal o.sender_email
    ∧ r.body.lookup "senderId" = strVal o.sender_id
    ∧ r.body.lookup "fromName" = strVal o.from_name
    ∧ r.body.lookup "replyTo" = strVal o.reply_to
    ∧ r.body.lookup "variables" = dictVal o.variables_
    ∧ r.body.lookup "priority" = strVal o.priority
    ∧ r.body.lookup "scheduledAt" = strVal o.scheduled_at
    ∧ r.body.lookup "headers" = strMapVal o.headers
    ∧ r.body.lookup "tags" = strListVal o.tags
    ∧ r.body.lookup "metadata" = dictVal o.metadata
    ∧ r.body.lookup "attachments" = pyListVal o.attachments
    ∧ (o.cc = none → r.body.lookup "cc" = none)
    ∧ (∀ cc l, o.cc = some cc → normalize_recipients cc = Except.ok l →
        r.body.lookup "cc" = some (PyVal.list l))
    ∧ (o.bcc = none → r.body.lookup "bcc" = none)
    ∧ (∀ bcc l, o.bcc = some bcc → normalize_recipients bcc = Except.ok l →
        r.body.lookup "bcc" = some (PyVal.list l)) := by
  obtain ⟨toN, ccPart, bccPart, h1, h2, h3, hpath, hbody⟩ := send_ok_elim h
  have hccne := ccEntryE_lookup_ne h2
  have hbccne := ccEntryE_lookup_ne h3
  refine ⟨?_, ?_, ?_, ?_, ?_, ?_, ?_, ?_, ?_, ?_, ?_, ?_, ?_, ?_, ?_, ?_⟩
  case _ =>
    rw [hbody]
    simp [lookup_append_or, strEntry_lookup, dictEntry_lookup, strMapEntry_lookup,
      strListEntry_lookup, pyListEntry_lookup, List.lookup,
      hccne "version" rfl, hbccne "version" rfl]
  case _ =>
    rw [hbody]
    simp [lookup_append_or, strEntry_lookup, dictEntry_lookup, strMapEntry_lookup,
      strListEntry_lookup, pyListEntry_lookup, List.lookup,
      hccne "senderEmail" rfl, hbccne "senderEmail" rfl]
  case _ =>
    rw [hbody]
    simp [lookup_append_or, strEntry_lookup, dictEntry_lookup, strMapEntry_lookup,
      strListEntry_lookup, pyListEntry_lookup, List.lookup,
      hccne "senderId" rfl, hbccne "senderId" rfl]
  case _ =>
    rw [hbody]
    simp [lookup_append_or, strEntry_lookup, dictEntry_lookup, strMapEntry_lookup,
      strListEntry_lookup, pyListEntry_lookup, List.lookup,
      hccne "fromName" rfl, hbccne "fromName" rfl]
  case _ =>
    rw [hbody]
    simp [lookup_append_or, strEntry_lookup, dictEntry_lookup, strMapEntry_lookup,
      strListEntry_lookup, pyListEntry_lookup, List.lookup,
      hccne "replyTo" rfl, hbccne "replyTo" rfl]
  case _ =>
    rw [hbody]
    simp [lookup_append_or, strEntry_lookup, dictEntry_lookup, strMapEntry_lookup,
      strListEntry_lookup, pyListEntry_lookup, List.lookup,
      hccne "variables" rfl, hbccne "variables" rfl]
  case _ =>
    rw [hbody]
    simp [lookup_append_or, strEntry_lookup, dictEntry_lookup, strMapEntry_lookup,
      strListEntry_lookup, pyListEntry_lookup, List.lookup,
      hccne "priority" rfl, hbccne "priority" rfl]
  case _ =>
    rw [hbody]
    simp [lookup_append_or, strEntry_lookup, dictEntry_lookup, strMapEntry_lookup,
      strListEntry_lookup, pyListEntry_lookup, List.lookup,
      hccne "scheduledAt" rfl, hbccne "scheduledAt" rfl]
  case _ =>
    rw [hbody]
    simp [lookup_append_or, strEntry_lookup, dictEntry_lookup, strMapEntry_lookup,
      strListEntry_lookup, pyListEntry_lookup, List.lookup,
      hccne "headers" rfl, hbccne "headers" rfl]
  case _ =>
    rw [hbody]
    simp [lookup_append_or, strEntry_lookup, dictEntry_lookup, strMapEntry_lookup,
      strListEntry_lookup, pyListEntry_lookup, List.lookup,
      hccne "tags" rfl, hbccne "tags" rfl]
  case _ =>
    rw [hbody]
    simp [lookup_append_or, strEntry_lookup, dictEntry_lookup, strMapEntry_lookup,
      strListEntry_lookup, pyListEntry_lookup, List.lookup,
      hccne "metadata" rfl, hbccne "metadata" rfl]
  case _ =>
    rw [hbody]
    simp [lookup_append_or, strEntry_lookup, dictEntry_lookup, strMapEntry_lookup,
      strListEntry_lookup, pyListEntry_lookup, List.lookup,
      hccne "attachments" rfl, hbccne "attachments" rfl]
  case _ =>
    intro hcc
    rw [hcc] at h2
    simp only [ccEntryE, Except.ok.injEq] at h2
    rw [hbody, ← h2]
    simp [lookup_append_or, strEntry_lookup, dictEntry_lookup, strMapEntry_lookup,
      strListEntry_lookup, pyListEntry_lookup, List.lookup, hbccne "cc" rfl]
  case _ =>
    intro cc l hcc hl
    rw [hcc] at h2
    rw [hbody]
    simp [lookup_append_or, List.lookup, ccEntryE_lookup_self h2 hl]
  case _ =>
    intro hbcc
    rw [hbcc] at h3
    simp only [ccEntryE, Except.ok.injEq] at h3
    rw [hbody, ← h3]
    simp [lookup_append_or, strEntry_lookup, dictEntry_lookup, strMapEntry_lookup,
      strListEntry_lookup, pyListEntry_lookup, List.lookup, hccne "bcc" rfl]
  case _ =>
    intro bcc l hbcc hl
    rw [hbcc] at h3
    rw [hbody]
    simp [lookup_append_or, List.lookup, ccEntryE_lookup_self h3 hl,
      hccne "bcc" rfl]

set_option maxHeartbeats 1600000 in
theorem send_bulk_lookup_master (o : BulkOptions) :
    (EmailsResource.send_bulk o).body.lookup "templateId" = some (PyVal.str o.template_id)
    ∧ (EmailsResource.send_bulk o).body.lookup "recipients"
        = some (PyVal.list (o.recipients.map PyVal.dict))
    ∧ (EmailsResource.send_bulk o).body.lookup "version" = strVal o.version
    ∧ (EmailsResource.send_bulk o).body.lookup "baseVariables" = dictVal o.base_variables
    ∧ (EmailsResource.send_bulk o).body.lookup "attachments" = pyListVal o.attachments
    ∧ (EmailsResource.send_bulk o).body.lookup "senderEmail" = strVal o.sender_email
    ∧ (EmailsResource.send_bulk o).body.lookup "senderId" = strVal o.sender_id
    ∧ (EmailsResource.send_bulk o).body.lookup "fromName" = strVal o.from_name
    ∧ (EmailsResource.send_bulk o).body.lookup "replyTo" = strVal o.reply_to
    ∧ (EmailsResource.send_bulk o).body.lookup "priority" = strVal o.priority
    ∧ (EmailsResource.send_bulk o).body.lookup "headers" = strMapVal o.headers
    ∧ (EmailsResource.send_bulk o).body.lookup "tags" = strListVal o.tags
    ∧ (EmailsResource.send_bulk o).body.lookup "metadata" = dictVal o.metadata
    ∧ (EmailsResource.send_bulk o).body.lookup "batchName" = strVal o.batch_name
    ∧ (EmailsResource.send_bulk o).body.lookup "dryRun" = boolVal o.dry_run
    ∧ (EmailsResource.send_bulk o).body.lookup "scheduledAt" = strVal o.scheduled_at := by
  refine ⟨rfl, rfl, ?_, ?_, ?_, ?_, ?_, ?_, ?_, ?_, ?_, ?_, ?_, ?_, ?_, ?_⟩ <;>
    simp [EmailsResource.send_bulk, lookup_append_or, strEntry_lookup, dictEntry_lookup,
      strMapEntry_lookup, strListEntry_lookup, pyListEntry_lookup, boolEntry_lookup,
      List.lookup]

theorem mergeLeft_lookup (o b : List (String × PyVal)) (k : String) :
    (b.map (fun kv => (kv.1, (o.lookup kv.1).getD kv.2))).lookup k
      = (b.lookup k).map (fun v => (o.lookup k).getD v) := by
  induction b with
  | nil => simp [List.lookup]
  | cons a t ih =>
    simp only [List.map_cons, List.lookup]
    cases h : (k == a.1) with
    | false => simpa [h] using ih
    | true =>
      have hk : k = a.1 := eq_of_beq h
      simp [hk]

theorem mergeRight_lookup (b o : List (String × PyVal)) (k : String)
    (hb : b.lookup k = none) :
    (o.filter (fun kv => (b.lookup kv.1).isNone)).lookup k = o.lookup k := by
  induction o with
  | nil => simp
  | cons a t ih =>
    cases h : (k == a.1) with
    | true =>
      have hk : k = a.1 := eq_of_beq h
      have hp : (b.lookup a.1).isNone = true := by rw [← hk, hb]; rfl
      simp [List.filter_cons, hp, List.lookup, h]
    | false =>
      by_cases hp : (b.lookup a.1).isNone = true
      · simp [List.filter_cons, hp, List.lookup, h, ih]
      · simp only [List.filter_cons, List.lookup]
        simp [hp, h, ih]

/-- C1 (counterexample): calling bulk-send with 1001 recipients does NOT fail
with `InvalidArgument`: `send_bulk` builds the request body, with all 1001
recipients passed through under the `recipients` key; likewise an empty
template reference and an empty recipients list both yield a built body. -/
theorem c1_bulk_1001_builds_body :
    ((EmailsResource.send_bulk
        { template_id := "tmpl_x",
          recipients := List.replicate 1001 [("email", PyVal.str "a@x.com")] }).body.lookup
        "recipients"
      = some (PyVal.list ((List.replicate 1001 [("email", PyVal.str "a@x.com")]).map PyVal.dict)))
    ∧ (List.replicate 1001 ([("email", PyVal.str "a@x.com")] : List (String × PyVal))).length = 1001
    ∧ ((EmailsResource.send_bulk { template_id := "", recipients := [] }).body.lookup "templateId"
        = some (PyVal.str ""))
    ∧ ((EmailsResource.send_bulk { template_id := "t", recipients := [] }).body.lookup "recipients"
        = some (PyVal.list [])) :=
  ⟨rfl, by rw [List.length_replicate], rfl, rfl⟩

/-- C1 (amended): `send_bulk` performs no client-side validation of the
recipients list or the template reference: for every input, including more
than 1000 recipients, an empty recipients list, or an empty template
reference, the request body is built with `templateId` and `recipients`
passed through verbatim and addressed to the bulk path; the source contains
no raise statement on this path, so no `InvalidArgument` error is possible. -/
theorem c1_bulk_no_validation (o : BulkOptions) :
    (EmailsResource.send_bulk o).path = "/api/v1/emails/send/bulk"
    ∧ (EmailsResource.send_bulk o).body.lookup "templateId" = some (PyVal.str o.template_id)
    ∧ (EmailsResource.send_bulk o).body.lookup "recipients"
        = some (PyVal.list (o.recipients.map PyVal.dict)) :=
  ⟨rfl, rfl, rfl⟩

/-- C2: in the built bulk request body, the per-recipient attachment data of
a recipient whose `attachmentOverrides` is a non-empty list is exactly that
list of overrides: it is passed through verbatim, and no element of the
top-level default `attachments` is merged into it — any default attachment
that is not itself among the overrides is absent from the per-recipient
view. -/
theorem c2_attachment_overrides_wholesale (o : BulkOptions) (i : Nat)
    (r : List (String × PyVal)) (ovs : List PyVal)
    (hr : o.recipients[i]? = some r)
    (hov : r.lookup "attachmentOverrides" = some (PyVal.list ovs))
    (_hne : ovs ≠ []) :
    recipientViewInBody (EmailsResource.send_bulk o).body i = some (PyVal.list ovs)
    ∧ ∀ a ∈ o.attachments.getD [], a ∉ ovs →
        ∀ vs, recipientViewInBody (EmailsResource.send_bulk o).body i
            = some (PyVal.list vs) → a ∉ vs := by
  have hbody : (EmailsResource.send_bulk o).body.lookup "recipients"
      = some (PyVal.list (o.recipients.map PyVal.dict)) := rfl
  have hview : recipientViewInBody (EmailsResource.send_bulk o).body i
      = some (PyVal.list ovs) := by
    simp [recipientViewInBody, hbody, List.getElem?_map, hr, hov]
  refine ⟨hview, ?_⟩
  intro a _ hnotin vs hvs
  rw [hview] at hvs
  have : vs = ovs := by
    simpa using hvs.symm
  rw [this]
  exact hnotin

/-- C2 witness: a concrete bulk call with one recipient carrying a non-empty
`attachmentOverrides` list and a distinct top-level default attachment. -/
theorem c2_witness :
    recipientViewInBody
      (EmailsResource.send_bulk
        { template_id := "report-email",
          recipients := [[("email", PyVal.str "vip@x.com"),
            ("attachmentOverrides",
              PyVal.list [PyVal.dict [("filename", PyVal.str "vip.pdf")]])]],
          attachments := some [PyVal.dict [("filename", PyVal.str "standard.pdf")]] }).body 0
      = some (PyVal.list [PyVal.dict [("filename", PyVal.str "vip.pdf")]]) :=
  (c2_attachment_overrides_wholesale
    { template_id := "report-email",
      recipients := [[("email", PyVal.str "vip@x.com"),
        ("attachmentOverrides",
          PyVal.list [PyVal.dict [("filename", PyVal.str "vip.pdf")]])]],
      attachments := some [PyVal.dict [("filename", PyVal.str "standard.pdf")]] }
    0
    [("email", PyVal.str "vip@x.com"),
      ("attachmentOverrides", PyVal.list [PyVal.dict [("filename", PyVal.str "vip.pdf")]])]
    [PyVal.dict [("filename", PyVal.str "vip.pdf")]]
    rfl rfl (by simp)).1

/-- C3: the variable merge policy is a shallow merge with override-wins
precedence: the merged lookup of any key is the override binding when
present and the base binding otherwise (so shadowed keys take the override
value and keys present in only one input pass through); merging with an
empty or absent override returns the base unchanged; `merge({a:1},{a:2})`
is `{a:2}`; a `None` base or override is treated exactly as an empty
mapping. Inputs are never mutated: `mergeVariables` is a pure function
returning a new list. -/
theorem c3_merge_policy :
    (∀ b o k, (mergeVariables (some b) (some o)).lookup k = ((o.lookup k).or (b.lookup k)))
    ∧ (∀ b, mergeVariables (some b) (some []) = b)
    ∧ (∀ b, mergeVariables (some b) none = b)
    ∧ (mergeVariables (some [("a", PyVal.int 1)]) (some [("a", PyVal.int 2)])
        = [("a", PyVal.int 2)])
    ∧ (∀ o, mergeVariables none o = mergeVariables (some []) o)
    ∧ (∀ b, mergeVariables b none = mergeVariables b (some [])) := by
  refine ⟨?_, ?_, ?_, rfl, fun o => rfl, fun b => rfl⟩
  · intro b o k
    simp only [mergeVariables, Option.getD_some]
    rw [lookup_append_or, mergeLeft_lookup]
    cases hb : b.lookup k with
    | none =>
      simp [mergeRight_lookup b o k hb]
    | some v =>
      cases ho : o.lookup k <;> simp [ho]
  · intro b
    simp [mergeVariables]
  · intro b
    simp [mergeVariables]

theorem send_ok_intro (o : SendOptions) (toN : List PyVal)
    (ccPart bccPart : List (String × PyVal))
    (h1 : normalize_recipients o.to_ = Except.ok toN)
    (h2 : ccEntryE "cc" o.cc = Except.ok ccPart)
    (h3 : ccEntryE "bcc" o.bcc = Except.ok bccPart) :
    EmailsResource.send o = Except.ok
      { path := "/api/v1/emails/send",
        body := [("templateId", PyVal.str o.template_id), ("to", PyVal.list toN)]
          ++ ccPart ++ bccPart
          ++ strEntry "version" o.version
          ++ strEntry "senderEmail" o.sender_email
          ++ strEntry "senderId" o.sender_id
          ++ strEntry "fromName" o.from_name
          ++ strEntry "replyTo" o.reply_to
          ++ dictEntry "variables" o.variables_
          ++ strEntry "priority" o.priority
          ++ strEntry "scheduledAt" o.scheduled_at
          ++ strMapEntry "headers" o.headers
          ++ strListEntry "tags" o.tags
          ++ dictEntry "metadata" o.metadata
          ++ pyListEntry "attachments" o.attachments } := by
  simp [EmailsResource.send, h1, h2, h3, Bind.bind, Except.bind, Pure.pure, Except.pure]

/-- C4 (counterexample): an optional field supplied as an EMPTY sequence is
not always omitted: supplying `cc=[]` to `send` includes `"cc": []` in the
built body, because the `cc`/`bcc` condition is `is not None` rather than
truthiness. -/
theorem c4_cc_empty_included :
    (EmailsResource.send
        { template_id := "t", to_ := PyVal.str "a@x.com", cc := some (PyVal.list []) }
      = Except.ok
          { path := "/api/v1/emails/send",
            body := [("templateId", PyVal.str "t"),
              ("to", PyVal.list [PyVal.dict [("email", PyVal.str "a@x.com")]]),
              ("cc", PyVal.list [])] })
    ∧ ([("templateId", PyVal.str "t"),
         ("to", PyVal.list [PyVal.dict [("email", PyVal.str "a@x.com")]]),
         ("cc", PyVal.list [])].lookup "cc" = some (PyVal.list [])) :=
  ⟨rfl, rfl⟩

/-- C4 (amended): every optional field of the single-send and bulk-send
builders except `cc` and `bcc` is omitted from the built body when not
supplied or supplied empty, and included under its fixed wire name with the
supplied value otherwise (`dryRun` is included whenever supplied, also when
`False`); `cc` and `bcc` are included whenever supplied — even as an empty
sequence — and omitted only when not supplied. -/
theorem c4_optional_field_omission :
    (∀ (o : SendOptions) (r : Request), EmailsResource.send o = Except.ok r →
      r.body.lookup "version" = strVal o.version
      ∧ r.body.lookup "senderEmail" = strVal o.sender_email
      ∧ r.body.lookup "senderId" = strVal o.sender_id
      ∧ r.body.lookup "fromName" = strVal o.from_name
      ∧ r.body.lookup "replyTo" = strVal o.reply_to
      ∧ r.body.lookup "variables" = dictVal o.variables_
      ∧ r.body.lookup "priority" = strVal o.priority
      ∧ r.body.lookup "scheduledAt" = strVal o.scheduled_at
      ∧ r.body.lookup "headers" = strMapVal o.headers
      ∧ r.body.lookup "tags" = strListVal o.tags
      ∧ r.body.lookup "metadata" = dictVal o.metadata
      ∧ r.body.lookup "attachments" = pyListVal o.attachments
      ∧ (o.cc = none → r.body.lookup "cc" = none)
      ∧ (∀ cc l, o.cc = some cc → normalize_recipients cc = Except.ok l →
          r.body.lookup "cc" = some (PyVal.list l))
      ∧ (o.bcc = none → r.body.lookup "bcc" = none)
      ∧ (∀ bcc l, o.bcc = some bcc → normalize_recipients bcc = Except.ok l →
          r.body.lookup "bcc" = some (PyVal.list l)))
    ∧ (∀ o : BulkOptions,
      (EmailsResource.send_bulk o).body.lookup "version" = strVal o.version
      ∧ (EmailsResource.send_bulk o).body.lookup "baseVariables" = dictVal o.base_variables
      ∧ (EmailsResource.send_bulk o).body.lookup "attachments" = pyListVal o.attachments
      ∧ (EmailsResource.send_bulk o).body.lookup "senderEmail" = strVal o.sender_email
      ∧ (EmailsResource.send_bulk o).body.lookup "senderId" = strVal o.sender_id
      ∧ (EmailsResource.send_bulk o).body.lookup "fromName" = strVal o.from_name
      ∧ (EmailsResource.send_bulk o).body.lookup "replyTo" = strVal o.reply_to
      ∧ (EmailsResource.send_bulk o).body.lookup "priority" = strVal o.priority
      ∧ (EmailsResource.send_bulk o).body.lookup "headers" = strMapVal o.headers
      ∧ (EmailsResource.send_bulk o).body.lookup "tags" = strListVal o.tags
      ∧ (EmailsResource.send_bulk o).body.lookup "metadata" = dictVal o.metadata
      ∧ (EmailsResource.send_bulk o).body.lookup "batchName" = strVal o.batch_name
      ∧ (EmailsResource.send_bulk o).body.lookup "dryRun" = boolVal o.dry_run
      ∧ (EmailsResource.send_bulk o).body.lookup "scheduledAt" = strVal o.scheduled_at) :=
  ⟨fun _ _ h => send_lookup_master h, fun o => (send_bulk_lookup_master o).2.2⟩

/-- C4 witness: a concrete single-send call with `from_name` supplied
non-empty (included as `fromName`) and `version` supplied as the empty
string (omitted), and a concrete bulk call with `dry_run=False` (included
as `dryRun: false`). -/
theorem c4_witness :
    (Request.body
        { path := "/api/v1/emails/send",
          body := [("templateId", PyVal.str "t"),
            ("to", PyVal.list [PyVal.dict [("email", PyVal.str "a@x.com")]]),
            ("fromName", PyVal.str "Ann")] }).lookup "fromName"
      = some (PyVal.str "Ann")
    ∧ (Request.body
        { path := "/api/v1/emails/send",
          body := [("templateId", PyVal.str "t"),
            ("to", PyVal.list [PyVal.dict [("email", PyVal.str "a@x.com")]]),
            ("fromName", PyVal.str "Ann")] }).lookup "version"
      = none
    ∧ (EmailsResource.send_bulk
        { template_id := "b", recipients := [], dry_run := some false }).body.lookup "dryRun"
      = some (PyVal.bool false) := by
  have h1 := c4_optional_field_omission.1
    { template_id := "t", to_ := PyVal.str "a@x.com",
      from_name := some "Ann", version := some "" }
    { path := "/api/v1/emails/send",
      body := [("templateId", PyVal.str "t"),
        ("to", PyVal.list [PyVal.dict [("email", PyVal.str "a@x.com")]]),
        ("fromName", PyVal.str "Ann")] }
    rfl
  have h2 := c4_optional_field_omission.2
    { template_id := "b", recipients := [], dry_run := some false }
  obtain ⟨hv, _, _, hfn, -⟩ := h1
  obtain ⟨_, _, _, _, _, _, _, _, _, _, _, _, hdr, -⟩ := h2
  exact ⟨hfn, hv, hdr⟩

/-- C5 (counterexample): `send_with_attachment` with the kind "docx" —
outside the enumeration pdf/excel — does NOT fail at build time: the
attachment is silently forwarded with `type: "docx"` in the built body. -/
theorem c5_docx_forwarded :
    (EmailsResource.send_with_attachment
        { template_id := "t", to_ := PyVal.str "a@x.com" } "atpl" "docx" none none
      = Except.ok
          { path := "/api/v1/emails/send",
            body := [("templateId", PyVal.str "t"),
              ("to", PyVal.list [PyVal.dict [("email", PyVal.str "a@x.com")]]),
              ("attachments", PyVal.list [PyVal.dict
                [("type", PyVal.str "docx"), ("templateId", PyVal.str "atpl")]])] })
    ∧ ("docx" ≠ "pdf" ∧ "docx" ≠ "excel") :=
  ⟨rfl, by decide, by decide⟩

/-- C5 (amended): the single-send attachment path performs no validation of
`attachment_type`: for every value of the kind, whenever the call succeeds
the built body forwards the attachment verbatim with that `type`, and
success never depends on the kind — the same call succeeds with any other
kind as well. No `InvalidArgument` is ever raised for the kind; the only
failure source is recipient normalization. -/
theorem c5_attachment_type_not_validated (o : SendOptions)
    (atid aty : String) (fn : Option String)
    (avars : Option (List (String × PyVal))) (r : Request)
    (h : EmailsResource.send_with_attachment o atid aty fn avars = Except.ok r) :
    r.body.lookup "attachments" = some (PyVal.list [PyVal.dict
      ([("type", PyVal.str aty), ("templateId", PyVal.str atid)]
        ++ strEntry "fileName" fn ++ dictEntry "variables" avars)])
    ∧ ∀ aty2 : String, ∃ r2,
        EmailsResource.send_with_attachment o atid aty2 fn avars = Except.ok r2 := by
  have h' : EmailsResource.send
      { o with attachments := some [PyVal.dict
        ([("type", PyVal.str aty), ("templateId", PyVal.str atid)]
          ++ strEntry "fileName" fn ++ dictEntry "variables" avars)] } = Except.ok r := h
  constructor
  · have hm := send_lookup_master h'
    exact hm.2.2.2.2.2.2.2.2.2.2.2.1
  · intro aty2
    obtain ⟨toN, ccPart, bccPart, h1, h2, h3, -, -⟩ := send_ok_elim h'
    have h1' : normalize_recipients o.to_ = Except.ok toN := h1
    have h2' : ccEntryE "cc" o.cc = Except.ok ccPart := h2
    have h3' : ccEntryE "bcc" o.bcc = Except.ok bccPart := h3
    exact ⟨_, send_ok_intro
      { o with attachments := some [PyVal.dict
        ([("type", PyVal.str aty2), ("templateId", PyVal.str atid)]
          ++ strEntry "fileName" fn ++ dictEntry "variables" avars)] }
      toN ccPart bccPart h1' h2' h3'⟩

/-- C5 witness: the theorem applied to a concrete call with the
out-of-enumeration kind "zip". -/
theorem c5_witness :
    List.lookup "attachments"
      (Request.body
        { path := "/api/v1/emails/send",
          body := [("templateId", PyVal.str "t"),
            ("to", PyVal.list [PyVal.dict [("email", PyVal.str "a@x.com")]]),
            ("attachments", PyVal.list [PyVal.dict
              [("type", PyVal.str "zip"), ("templateId", PyVal.str "atpl")]])] })
      = some (PyVal.list [PyVal.dict
          ([("type", PyVal.str "zip"), ("templateId", PyVal.str "atpl")]
            ++ strEntry "fileName" none ++ dictEntry "variables" none)]) :=
  (c5_attachment_type_not_validated
    { template_id := "t", to_ := PyVal.str "a@x.com" } "atpl" "zip" none none
    { path := "/api/v1/emails/send",
      body := [("templateId", PyVal.str "t"),
        ("to", PyVal.list [PyVal.dict [("email", PyVal.str "a@x.com")]]),
        ("attachments", PyVal.list [PyVal.dict
          [("type", PyVal.str "zip"), ("templateId", PyVal.str "atpl")]])] }
    rfl).1

/-- C6: for every valid RecipientInput shape (string, record, or sequence of
mixed strings and records) normalization succeeds with element count equal
to the input count — 1 for a scalar, N for a sequence of N elements — in
input order: a string input yields the single element with that string
under the address key and nothing else, a record input passes through as a
single element, and a sequence maps each element through the element rule
in order. -/
theorem c6_normalize_shapes (v : PyVal) (h : isValidRecipientInput v = true) :
    ∃ out, normalize_recipients v = Except.ok out
      ∧ out.length = inputCount v
      ∧ (∀ s, v = PyVal.str s → out = [PyVal.dict [("email", PyVal.str s)]])
      ∧ (∀ d, v = PyVal.dict d → out = [PyVal.dict d])
      ∧ (∀ rs, v = PyVal.list rs → out = rs.map normalize_elem) := by
  match v with
  | PyVal.str s =>
    refine ⟨[PyVal.dict [("email", PyVal.str s)]], rfl, rfl, ?_, ?_, ?_⟩
    · intro s2 hs
      injection hs with hs2
      rw [hs2]
    · intro d hd
      simp at hd
    · intro rs hrs
      simp at hrs
  | PyVal.dict d =>
    refine ⟨[PyVal.dict d], rfl, rfl, ?_, ?_, ?_⟩
    · intro s2 hs
      simp at hs
    · intro d2 hd
      injection hd with hd2
      rw [hd2]
    · intro rs hrs
      simp at hrs
  | PyVal.list rs =>
    refine ⟨rs.map normalize_elem, rfl, ?_, ?_, ?_, ?_⟩
    · simp [inputCount]
    · intro s2 hs
      simp at hs
    · intro d hd
      simp at hd
    · intro rs2 hrs
      injection hrs with hrs2
      rw [hrs2]
  | PyVal.null => simp [isValidRecipientInput] at h
  | PyVal.bool b => simp [isValidRecipientInput] at h
  | PyVal.int n => simp [isValidRecipientInput] at h

/-- C6 witness: a mixed two-element sequence — a bare address string and a
record — normalizes to two elements in order. -/
theorem c6_witness :
    isValidRecipientInput (PyVal.list [PyVal.str "a@x.com",
      PyVal.dict [("email", PyVal.str "b@x.com"), ("name", PyVal.str "B")]]) = true
    ∧ ∃ out, normalize_recipients (PyVal.list [PyVal.str "a@x.com",
        PyVal.dict [("email", PyVal.str "b@x.com"), ("name", PyVal.str "B")]])
          = Except.ok out
      ∧ out.length = inputCount (PyVal.list [PyVal.str "a@x.com",
          PyVal.dict [("email", PyVal.str "b@x.com"), ("name", PyVal.str "B")]])
      ∧ (∀ s, PyVal.list [PyVal.str "a@x.com",
          PyVal.dict [("email", PyVal.str "b@x.com"), ("name", PyVal.str "B")]]
            = PyVal.str s → out = [PyVal.dict [("email", PyVal.str s)]])
      ∧ (∀ d, PyVal.list [PyVal.str "a@x.com",
          PyVal.dict [("email", PyVal.str "b@x.com"), ("name", PyVal.str "B")]]
            = PyVal.dict d → out = [PyVal.dict d])
      ∧ (∀ rs, PyVal.list [PyVal.str "a@x.com",
          PyVal.dict [("email", PyVal.str "b@x.com"), ("name", PyVal.str "B")]]
            = PyVal.list rs → out = rs.map normalize_elem) :=
  ⟨rfl, c6_normalize_shapes (PyVal.list [PyVal.str "a@x.com",
    PyVal.dict [("email", PyVal.str "b@x.com"), ("name", PyVal.str "B")]]) rfl⟩

/-- C7 (counterexample): the normalizer accepts the empty string and an
empty record without error, producing an element whose address IS empty
(for the string) or absent entirely (for the record) — the claimed
non-empty-address invariant does not hold. -/
theorem c7_empty_address_accepted :
    normalize_recipients (PyVal.str "") = Except.ok [PyVal.dict [("email", PyVal.str "")]]
    ∧ ("" : String).isEmpty = true
    ∧ normalize_recipients (PyVal.dict []) = Except.ok [PyVal.dict []]
    ∧ ([] : List (String × PyVal)).lookup "email" = none :=
  ⟨rfl, rfl, rfl, rfl⟩

/-- C7 (amended): the normalizer validates nothing about addresses or
display names: a string input becomes the address verbatim — possibly
empty — and a record input passes through verbatim, with whatever address
and name fields it has or lacks. -/
theorem c7_normalize_no_validation :
    (∀ s, normalize_recipients (PyVal.str s)
        = Except.ok [PyVal.dict [("email", PyVal.str s)]])
    ∧ (∀ d, normalize_recipients (PyVal.dict d) = Except.ok [PyVal.dict d]) :=
  ⟨fun _ => rfl, fun _ => rfl⟩

/-- C8 (counterexample): a nested sequence does NOT fail with
`InvalidArgument`: a list containing a list is accepted, the inner list
passed through unchanged. -/
theorem c8_nested_sequence_accepted :
    normalize_recipients (PyVal.list [PyVal.list [PyVal.str "a@x.com"]])
      = Except.ok [PyVal.list [PyVal.str "a@x.com"]] :=
  rfl

/-- C8 (amended): a TOP-LEVEL input that is not a string, record, or
sequence — a number, null, or bool — fails with a `ValueError` identifying
the received type; but a sequence input never fails: each element that is
not a string (including a nested sequence, a number, or null) is passed
through unchanged rather than rejected. -/
theorem c8_invalid_type_errors :
    (∀ n : Int, normalize_recipients (PyVal.int n)
        = Except.error (PyError.valueError "Invalid recipient type: int"))
    ∧ (normalize_recipients PyVal.null
        = Except.error (PyError.valueError "Invalid recipient type: NoneType"))
    ∧ (∀ b, normalize_recipients (PyVal.bool b)
        = Except.error (PyError.valueError "Invalid recipient type: bool"))
    ∧ (∀ rs, normalize_recipients (PyVal.list rs) = Except.ok (rs.map normalize_elem))
    ∧ (∀ xs, normalize_elem (PyVal.list xs) = PyVal.list xs)
    ∧ (∀ n : Int, normalize_elem (PyVal.int n) = PyVal.int n)
    ∧ (normalize_elem PyVal.null = PyVal.null) :=
  ⟨fun _ => rfl, rfl, fun _ => rfl, fun _ => rfl, fun _ => rfl, fun _ => rfl, rfl⟩

/-- C9: the response unwrapper returns the value bound to key `data` when
the response mapping contains that key, and the response unchanged
otherwise; it is a total function (never fails, malformed envelopes pass
through as-is); and the two round-trip examples hold. -/
theorem c9_unwrap_contract :
    (∀ (response : List (String × PyVal)) (v : PyVal),
        response.lookup "data" = some v → unwrapResponse response = v)
    ∧ (∀ response : List (String × PyVal),
        response.lookup "data" = none → unwrapResponse response = PyVal.dict response)
    ∧ (unwrapResponse [("data", PyVal.dict [("id", PyVal.str "e_1")])]
        = PyVal.dict [("id", PyVal.str "e_1")])
    ∧ (unwrapResponse [("id", PyVal.str "e_1")] = PyVal.dict [("id", PyVal.str "e_1")]) := by
  refine ⟨?_, ?_, rfl, rfl⟩
  · intro response v h
    simp [unwrapResponse, h]
  · intro response h
    simp [unwrapResponse, h]

/-- C9 witness: the contract applied to an enveloped and an
envelope-less concrete response. -/
theorem c9_witness :
    unwrapResponse [("data", PyVal.str "x")] = PyVal.str "x"
    ∧ unwrapResponse [("meta", PyVal.null)] = PyVal.dict [("meta", PyVal.null)] :=
  ⟨c9_unwrap_contract.1 [("data", PyVal.str "x")] (PyVal.str "x") rfl,
   c9_unwrap_contract.2.1 [("meta", PyVal.null)] rfl⟩

/-- C10: the synchronous and asynchronous generations build identical
requests: `EmailsResource.send` and `AsyncEmailsResource.send` are equal as
functions from options to the built request (same JSON body, same path),
and likewise for `send_bulk`. -/
theorem c10_sync_async_equal :
    EmailsResource.send = AsyncEmailsResource.send
    ∧ EmailsResource.send_bulk = AsyncEmailsResource.send_bulk :=
  ⟨rfl, rfl⟩
